import Mathlib

/-!
A shallow embedding of the authentication subsystem of a FastAPI backend
(`app/core/security.py`, `app/services/user.py`, `app/api/deps/auth.py`,
`app/api/v1/auth.py`, `app/api/v1/health.py`), together with theorems about
its token, user-store and endpoint behaviour.

Modelling conventions:
* Times are `Nat` seconds since the epoch; `datetime.utcnow()` is an explicit
  `now` parameter and `timedelta` values are second counts.  The server clock
  is assumed to be at UTC, so `datetime.fromtimestamp` is the identity on the
  stored integer timestamp.
* A JWT is modelled as its claim dictionary plus the key it was signed with;
  signature verification succeeds exactly when the verifying key equals the
  signing key.  Claim dictionaries are association lists (Python `dict`s).
* Exceptions become `Except` results; `raise` is `.error`.
-/

/-- A JSON claim value as used in the token payloads (strings and integers). -/
inductive CVal where
  | s (v : String)
  | n (v : Nat)
deriving DecidableEq, Repr

/-- A claim set: the Python payload `dict`. -/
abbrev Claims := List (String × CVal)

/-- `dict.get(k)`: first binding of `k`, if any. -/
def Claims.get (c : Claims) (k : String) : Option CVal :=
  (c.find? (fun p => p.1 = k)).map Prod.snd

/-- `dict[k] = v`: overwrite the binding of `k`, or append it. -/
def Claims.set (c : Claims) (k : String) (v : CVal) : Claims :=
  if c.any (fun p => p.1 = k) then
    c.map (fun p => if p.1 = k then (k, v) else p)
  else
    c ++ [(k, v)]

/-- `dict.update(extra)`: apply the bindings of `extra` in order. -/
def Claims.dictUpdate (c : Claims) (extra : Claims) : Claims :=
  extra.foldl (fun acc p => acc.set p.1 p.2) c

/-- Decimal digit value of a character, if it is one. -/
def charDigit? (c : Char) : Option Nat :=
  if 48 ≤ c.toNat ∧ c.toNat ≤ 57 then some (c.toNat - 48) else none

/-- Accumulate decimal digits; any non-digit fails the parse. -/
def digitsToNat? : List Char → Nat → Option Nat
  | [], acc => some acc
  | c :: cs, acc =>
    match charDigit? c with
    | some d => digitsToNat? cs (acc * 10 + d)
    | none => none

/-- Python `int(s)` on a nonnegative decimal string; `none` models the
`ValueError` on anything else. -/
def pyInt? (s : String) : Option Nat :=
  match s.data with
  | [] => none
  | cs => digitsToNat? cs 0

/-- Python `int(v)` on a claim value: identity on ints, decimal parse on
strings (`none` models the `ValueError` / non-integer case). -/
def CVal.toInt : CVal → Option Nat
  | .n v => some v
  | .s v => pyInt? v

/-- Python `str(v)` on a claim value. -/
def CVal.toStr : CVal → String
  | .s v => v
  | .n v => toString v

/-- Python truthiness of a claim value (`""` and `0` are falsy). -/
def CVal.falsy : CVal → Bool
  | .s v => v = ""
  | .n v => v = 0

/-- A JWT: the encoded claim set together with the signing key.  The signature
of a token checks out against a verification key exactly when the two keys
coincide (HMAC with a shared secret). -/
structure Jwt where
  payload : Claims
  sig : String
deriving DecidableEq, Repr

/-- `jose.jwt.encode(to_encode, key, algorithm)`. -/
def jwtEncode (to_encode : Claims) (key : String) : Jwt :=
  { payload := to_encode, sig := key }

/-- The errors `jose.jwt.decode` can raise; all are subclasses of `JWTError`. -/
inductive JoseError where
  | signatureInvalid
  | expiredSignature
  | claimsError
deriving DecidableEq, Repr

/-- `str(e)` for each `JWTError` raised by the decode path. -/
def JoseError.message : JoseError → String
  | .signatureInvalid => "Signature verification failed."
  | .expiredSignature => "Signature has expired."
  | .claimsError => "Expiration Time claim (exp) must be an integer."

/-- `jose.jwt.decode(token, key, algorithms)` with default options: verifies
the signature, then (because `verify_exp` defaults to true) validates the
`exp` claim when present, raising `ExpiredSignatureError` when `exp < now`
(leeway 0) and `JWTClaimsError` when `exp` is not an integer. -/
def jwtDecode (token : Jwt) (key : String) (now : Nat) : Except JoseError Claims :=
  if token.sig ≠ key then
    .error .signatureInvalid
  else
    match token.payload.get "exp" with
    | none => .ok token.payload
    | some v =>
      match v.toInt with
      | none => .error .claimsError
      | some exp => if exp < now then .error .expiredSignature else .ok token.payload

/-- An application exception from `app/core/exceptions.py`: a message plus the
HTTP status it carries. -/
structure AppError where
  message : String
  status_code : Nat
deriving DecidableEq, Repr

/-- `UnauthorizedError(message)` (status 401). -/
def UnauthorizedError (message : String) : AppError :=
  { message := message, status_code := 401 }

/-- `NotFoundError(message)` (status 404). -/
def NotFoundError (message : String) : AppError :=
  { message := message, status_code := 404 }

/-- `ConflictError(message)` (status 409). -/
def ConflictError (message : String) : AppError :=
  { message := message, status_code := 409 }

/-- `ValidationError(message)` (status 422). -/
def ValidationError (message : String) : AppError :=
  { message := message, status_code := 422 }

/-- `settings.access_token_expire_minutes` (default 30). -/
def access_token_expire_minutes : Nat := 30

/-- `settings.refresh_token_expire_days` (default 7). -/
def refresh_token_expire_days : Nat := 7

/-- `create_access_token(subject, expires_delta, additional_claims)` from
`app/core/security.py`.  `expires_delta` is a second count; `some 0` falls
back to the default TTL because a zero `timedelta` is falsy in Python. -/
def create_access_token (subject : String) (now : Nat)
    (expires_delta : Option Nat := none) (additional_claims : Option Claims := none)
    (key : String := "secret") : Jwt :=
  let expire : Nat :=
    match expires_delta with
    | some d => if d ≠ 0 then now + d else now + access_token_expire_minutes * 60
    | none => now + access_token_expire_minutes * 60
  let to_encode : Claims :=
    [("sub", .s subject), ("exp", .n expire), ("iat", .n now), ("type", .s "access")]
  let to_encode :=
    match additional_claims with
    | some extra => to_encode.dictUpdate extra
    | none => to_encode
  jwtEncode to_encode key

/-- `create_refresh_token(subject)` from `app/core/security.py`. -/
def create_refresh_token (subject : String) (now : Nat) (key : String := "secret") : Jwt :=
  let expire := now + refresh_token_expire_days * 24 * 60 * 60
  jwtEncode
    [("sub", .s subject), ("exp", .n expire), ("iat", .n now), ("type", .s "refresh")]
    key

/-- `generate_password_reset_token(email)` from `app/core/security.py`
(15-minute TTL). -/
def generate_password_reset_token (email : String) (now : Nat)
    (key : String := "secret") : Jwt :=
  let expire := now + 15 * 60
  jwtEncode
    [("sub", .s email), ("exp", .n expire), ("iat", .n now), ("type", .s "password_reset")]
    key

/-- `verify_token(token, token_type)` from `app/core/security.py`: decodes via
`jose.jwt.decode` (which itself checks the signature and the `exp` claim),
then checks the `type` claim, then re-checks expiration by hand; any
`JWTError` from the decode is re-raised as
`UnauthorizedError("Invalid token: " + str(e))`. -/
def verify_token (token : Jwt) (key : String) (now : Nat)
    (token_type : String := "access") : Except AppError Claims :=
  match jwtDecode token key now with
  | .error e => .error (UnauthorizedError ("Invalid token: " ++ e.message))
  | .ok payload =>
    if payload.get "type" ≠ some (.s token_type) then
      .error (UnauthorizedError "Invalid token type")
    else
      match payload.get "exp" with
      | none => .error (UnauthorizedError "Token has expired")
      | some v =>
        match v.toInt with
        | none => .error (UnauthorizedError "Token has expired")
        | some exp =>
          if now > exp then .error (UnauthorizedError "Token has expired")
          else .ok payload

/-- `get_user_id_from_token(token)` from `app/core/security.py`: verifies as
an access token and projects the `sub` claim. -/
def get_user_id_from_token (token : Jwt) (key : String) (now : Nat) :
    Except AppError CVal :=
  match verify_token token key now "access" with
  | .error e => .error e
  | .ok payload =>
    match payload.get "sub" with
    | none => .error (UnauthorizedError "Invalid token: no user ID")
    | some user_id => .ok user_id

/-! ### User store (`app/models/user.py`, `app/schemas/user.py`, `app/services/user.py`) -/

/-- The stored user record, `UserInDB` from `app/models/user.py` (mirroring the
ORM row in `app/schemas/user.py`). -/
structure UserInDB where
  id : Nat
  email : String
  username : String
  full_name : Option String
  hashed_password : String
  is_active : Bool
  is_superuser : Bool
  created_at : Option Nat
  updated_at : Option Nat
  last_login : Option Nat
deriving DecidableEq, Repr

/-- The user table: the rows in insertion order. -/
abbrev DB := List UserInDB

/-- `get_password_hash(password)`: models the external bcrypt collaborator by
a deterministic tagged encoding; all the code relies on is that a hash
produced from `p` verifies against `p`. -/
def get_password_hash (password : String) : String :=
  "bcrypt$" ++ password

/-- `verify_password(plain_password, hashed_password)`: the matching check for
`get_password_hash`. -/
def verify_password (plain_password hashed_password : String) : Bool :=
  hashed_password = get_password_hash plain_password

/-- `get_user_by_id(db, user_id)`. -/
def get_user_by_id (db : DB) (user_id : Nat) : Option UserInDB :=
  db.find? (fun u => u.id = user_id)

/-- `get_user_by_email(db, email)`. -/
def get_user_by_email (db : DB) (email : String) : Option UserInDB :=
  db.find? (fun u => u.email = email)

/-- `get_user_by_username(db, username)`. -/
def get_user_by_username (db : DB) (username : String) : Option UserInDB :=
  db.find? (fun u => u.username = username)

/-- `UserCreate` from `app/models/user.py` (the registration input after
field validation; `password_confirm` has already been checked equal to
`password` by the validator). -/
structure UserCreate where
  email : String
  username : String
  full_name : Option String
  is_active : Bool
  password : String
  password_confirm : String
deriving DecidableEq, Repr

/-- `create_user(db, user_create)` from `app/services/user.py`: rejects a
taken email or username with `ConflictError`, otherwise hashes the password
and inserts the new row (`new_id` and `now` stand for the id and timestamps
the database assigns on commit).  The state component of the result is the
table after the call. -/
def create_user (db : DB) (user_create : UserCreate) (new_id : Nat) (now : Nat) :
    DB × Except AppError UserInDB :=
  match get_user_by_email db user_create.email with
  | some _ => (db, .error (ConflictError "User with this email already exists"))
  | none =>
    match get_user_by_username db user_create.username with
    | some _ => (db, .error (ConflictError "User with this username already exists"))
    | none =>
      let db_user : UserInDB :=
        { id := new_id
          email := user_create.email
          username := user_create.username
          full_name := user_create.full_name
          hashed_password := get_password_hash user_create.password
          is_active := user_create.is_active
          is_superuser := false
          created_at := some now
          updated_at := some now
          last_login := none }
      (db ++ [db_user], .ok db_user)

/-- `UserChangePassword` from `app/models/user.py` (after field validation;
`new_password_confirm` has been checked equal to `new_password`). -/
structure UserChangePassword where
  current_password : String
  new_password : String
  new_password_confirm : String
deriving DecidableEq, Repr

/-- `change_password(db, user_id, password_change)` from
`app/services/user.py`: 404 when the user is missing, `ValidationError` when
the current password does not verify, otherwise rewrites the stored hash and
`updated_at` on the matching row and returns the re-fetched row. -/
def change_password (db : DB) (user_id : Nat) (password_change : UserChangePassword)
    (now : Nat) : DB × Except AppError UserInDB :=
  match get_user_by_id db user_id with
  | none => (db, .error (NotFoundError "User not found"))
  | some db_user =>
    if ¬ verify_password password_change.current_password db_user.hashed_password then
      (db, .error (ValidationError "Current password is incorrect"))
    else
      let new_hashed_password := get_password_hash password_change.new_password
      let db2 := db.map (fun u =>
        if u.id = user_id then
          { u with hashed_password := new_hashed_password, updated_at := some now }
        else u)
      match get_user_by_id db2 user_id with
      | some updated_user => (db2, .ok updated_user)
      | none => (db2, .error (NotFoundError "User not found"))

/-- `authenticate_user(db, email, password)` from `app/services/user.py`:
`none` when the email is unknown, the password mismatches, or the user is
inactive; on success stamps `last_login` and returns the record as fetched
before the stamp. -/
def authenticate_user (db : DB) (email password : String) (now : Nat) :
    DB × Option UserInDB :=
  match get_user_by_email db email with
  | none => (db, none)
  | some user =>
    if ¬ verify_password password user.hashed_password then (db, none)
    else if ¬ user.is_active then (db, none)
    else
      let db2 := db.map (fun u =>
        if u.id = user.id then { u with last_login := some now } else u)
      (db2, some user)

/-! ### Response models and endpoints (`app/models/*.py`, `app/api/**`) -/

/-- A FastAPI `HTTPException`: status code and detail message. -/
structure HTTPError where
  status_code : Nat
  detail : String
deriving DecidableEq, Repr

/-- A JSON value in a serialized response body. -/
inductive JVal where
  | s (v : String)
  | n (v : Nat)
  | b (v : Bool)
  | null
deriving DecidableEq, Repr

/-- The public response model `User` from `app/models/user.py`: the fields of
`UserBase` and `TimestampSchema` plus `id`, `is_superuser`, `last_login` —
and no password field of any kind. -/
structure User where
  email : String
  username : String
  full_name : Option String
  is_active : Bool
  created_at : Option Nat
  updated_at : Option Nat
  id : Nat
  is_superuser : Bool
  last_login : Option Nat
deriving DecidableEq, Repr

/-- `User.from_orm(user)`: builds the public view from a stored record by
reading exactly the declared fields of `User`. -/
def User.from_orm (u : UserInDB) : User :=
  { email := u.email
    username := u.username
    full_name := u.full_name
    is_active := u.is_active
    created_at := u.created_at
    updated_at := u.updated_at
    id := u.id
    is_superuser := u.is_superuser
    last_login := u.last_login }

/-- Serialization of an optional string field. -/
def JVal.ofOptStr : Option String → JVal
  | some v => .s v
  | none => .null

/-- Serialization of an optional timestamp field. -/
def JVal.ofOptNat : Option Nat → JVal
  | some v => .n v
  | none => .null

/-- The serialized body of a `User` response: one key per declared model
field, in declaration order. -/
def User.toDict (u : User) : List (String × JVal) :=
  [("email", .s u.email),
   ("username", .s u.username),
   ("full_name", .ofOptStr u.full_name),
   ("is_active", .b u.is_active),
   ("created_at", .ofOptNat u.created_at),
   ("updated_at", .ofOptNat u.updated_at),
   ("id", .n u.id),
   ("is_superuser", .b u.is_superuser),
   ("last_login", .ofOptNat u.last_login)]

/-- `BaseResponse[T]` from `app/models/base.py`. -/
structure BaseResponse (T : Type) where
  success : Bool
  message : Option String
  data : Option T
deriving DecidableEq, Repr

/-- `Token` from `app/models/user.py` (the login/refresh response body). -/
structure Token where
  access_token : Jwt
  refresh_token : Option Jwt
  token_type : String
  expires_in : Nat
deriving DecidableEq, Repr

/-- `register(user_create, db)` from `app/api/v1/auth.py`: runs
`create_user` and wraps the result; any service error is re-raised as a 400
`HTTPException` carrying `str(e)`. -/
def register (db : DB) (user_create : UserCreate) (new_id : Nat) (now : Nat) :
    DB × Except HTTPError (BaseResponse User) :=
  match create_user db user_create new_id now with
  | (db2, .ok user) =>
    (db2, .ok { success := true
                message := some "User registered successfully"
                data := some (User.from_orm user) })
  | (db2, .error e) => (db2, .error { status_code := 400, detail := e.message })

/-- `login(user_login, db)` from `app/api/v1/auth.py`: authenticates, and on
any authentication failure raises 401 "Incorrect email or password";
otherwise issues the access/refresh token pair. -/
def login (db : DB) (email password : String) (now : Nat) (key : String) :
    DB × Except HTTPError (BaseResponse Token) :=
  match authenticate_user db email password now with
  | (db2, none) =>
    (db2, .error { status_code := 401, detail := "Incorrect email or password" })
  | (db2, some user) =>
    let access_token := create_access_token (toString user.id) now
      (some (access_token_expire_minutes * 60)) none key
    let refresh_tok := create_refresh_token (toString user.id) now key
    let token_data : Token :=
      { access_token := access_token
        refresh_token := some refresh_tok
        token_type := "bearer"
        expires_in := access_token_expire_minutes * 60 }
    (db2, .ok { success := true, message := some "Login successful", data := some token_data })

/-- `get_current_user_id(credentials)` from `app/api/deps/auth.py`: a missing
credential (the `HTTPBearer(auto_error=False)` dependency yields `None`, so
`credentials.credentials` raises) and every token-verification failure are
all caught and turned into 401 "Could not validate credentials". -/
def get_current_user_id (credentials : Option Jwt) (key : String) (now : Nat) :
    Except HTTPError CVal :=
  match credentials with
  | none => .error { status_code := 401, detail := "Could not validate credentials" }
  | some token =>
    match get_user_id_from_token token key now with
    | .ok user_id => .ok user_id
    | .error _ =>
      .error { status_code := 401, detail := "Could not validate credentials" }

/-- `get_current_user(db, user_id)` from `app/api/deps/auth.py`: resolves the
id from the credential, loads the user (`int(user_id)` raising uncaught on a
non-numeric `sub` would surface as a 500 from the framework), and rejects a
missing or inactive user with distinct 401 details. -/
def get_current_user (db : DB) (credentials : Option Jwt) (key : String) (now : Nat) :
    Except HTTPError UserInDB :=
  match get_current_user_id credentials key now with
  | .error e => .error e
  | .ok user_id =>
    match user_id.toInt with
    | none => .error { status_code := 500, detail := "Internal Server Error" }
    | some uid =>
      match get_user_by_id db uid with
      | none => .error { status_code := 401, detail := "User not found" }
      | some user =>
        if ¬ user.is_active then
          .error { status_code := 401, detail := "User is not active" }
        else .ok user

/-- `OptionalAuth.__call__(credentials)` from `app/api/deps/auth.py`: `none`
without a credential, the verified `sub` on success, and `none` again when
`get_user_id_from_token` raises for any reason. -/
def OptionalAuth.call (credentials : Option Jwt) (key : String) (now : Nat) :
    Option CVal :=
  match credentials with
  | none => none
  | some token =>
    match get_user_id_from_token token key now with
    | .ok user_id => some user_id
    | .error _ => none

/-- `refresh_token(token_refresh, db)` from `app/api/v1/auth.py`: verifies
with expected type "refresh" (an `UnauthorizedError` there is caught by the
generic handler as 401 "Could not refresh token"), rejects a missing/falsy
`sub`, re-checks that the user exists and is active, and issues a fresh
access/refresh pair.  The store is only read, never written. -/
def refresh_endpoint (db : DB) (refresh_tok : Jwt) (key : String) (now : Nat) :
    Except HTTPError (BaseResponse Token) :=
  match verify_token refresh_tok key now "refresh" with
  | .error _ => .error { status_code := 401, detail := "Could not refresh token" }
  | .ok payload =>
    let user_id := payload.get "sub"
    match user_id with
    | none => .error { status_code := 401, detail := "Invalid refresh token" }
    | some user_id =>
      if user_id.falsy then
        .error { status_code := 401, detail := "Invalid refresh token" }
      else
        match user_id.toInt with
        | none => .error { status_code := 401, detail := "Could not refresh token" }
        | some uid =>
          match get_user_by_id db uid with
          | none => .error { status_code := 401, detail := "User not found or inactive" }
          | some user =>
            if ¬ user.is_active then
              .error { status_code := 401, detail := "User not found or inactive" }
            else
              let access_token := create_access_token user_id.toStr now
                (some (access_token_expire_minutes * 60)) none key
              let new_refresh := create_refresh_token user_id.toStr now key
              .ok { success := true
                    message := some "Token refreshed successfully"
                    data := some
                      { access_token := access_token
                        refresh_token := some new_refresh
                        token_type := "bearer"
                        expires_in := access_token_expire_minutes * 60 } }

/-- `HealthCheckResponse` from `app/models/base.py` (uptime modelled in whole
seconds). -/
structure HealthCheckResponse where
  status : String
  timestamp : Nat
  version : String
  environment : String
  uptime : Option Nat
deriving DecidableEq, Repr

/-- `readiness_check(db)` from `app/api/v1/health.py`: the database probe
(`SELECT 1`) outcome is the `probe` argument; both the success and the
failure branch return a plain 200 response, differing only in `status`. -/
def readiness_check (probe : Except String Unit) (now : Nat)
    (version environment : String) (uptime : Nat) :
    Except HTTPError HealthCheckResponse :=
  match probe with
  | .ok _ =>
    .ok { status := "ready", timestamp := now, version := version
          environment := environment, uptime := some uptime }
  | .error _ =>
    .ok { status := "not_ready", timestamp := now, version := version
          environment := environment, uptime := some uptime }

/-! ### Helper lemmas on issued tokens -/

/-- The claim set every issuing operation builds: `sub`, `exp`, `iat`, `type`
in the source's dictionary order. -/
def issuedPayload (subject : String) (iat expire : Nat) (token_type : String) : Claims :=
  [("sub", .s subject), ("exp", .n expire), ("iat", .n iat), ("type", .s token_type)]

theorem issuedPayload_get_sub (subject : String) (iat expire : Nat) (token_type : String) :
    (issuedPayload subject iat expire token_type).get "sub" = some (.s subject) := rfl

theorem issuedPayload_get_exp (subject : String) (iat expire : Nat) (token_type : String) :
    (issuedPayload subject iat expire token_type).get "exp" = some (.n expire) := rfl

theorem issuedPayload_get_type (subject : String) (iat expire : Nat) (token_type : String) :
    (issuedPayload subject iat expire token_type).get "type" = some (.s token_type) := rfl

/-- The expiry chosen by `create_access_token` (the local `expire`). -/
def accessTokenExpiry (now : Nat) : Option Nat → Nat
  | some d => if d ≠ 0 then now + d else now + access_token_expire_minutes * 60
  | none => now + access_token_expire_minutes * 60

theorem create_access_token_eq (subject : String) (now : Nat) (expires_delta : Option Nat)
    (key : String) :
    create_access_token subject now expires_delta none key =
      jwtEncode (issuedPayload subject now (accessTokenExpiry now expires_delta) "access") key := by
  cases expires_delta <;> rfl

theorem create_refresh_token_eq (subject : String) (now : Nat) (key : String) :
    create_refresh_token subject now key =
      jwtEncode
        (issuedPayload subject now (now + refresh_token_expire_days * 24 * 60 * 60) "refresh")
        key := rfl

theorem generate_password_reset_token_eq (email : String) (now : Nat) (key : String) :
    generate_password_reset_token email now key =
      jwtEncode (issuedPayload email now (now + 15 * 60) "password_reset") key := rfl

/-- Full characterization of `verify_token` on a token signed with the
verifying key and carrying the standard claim set: the decode-level expiry
check fires first (strictly past expiry only), then the type check; an
unexpired, type-matching token verifies to its payload. -/
theorem verify_token_issued (subject token_type expected key : String)
    (iat expire now : Nat) :
    verify_token (jwtEncode (issuedPayload subject iat expire token_type) key) key now expected =
      if expire < now then
        .error (UnauthorizedError "Invalid token: Signature has expired.")
      else if token_type ≠ expected then
        .error (UnauthorizedError "Invalid token type")
      else
        .ok (issuedPayload subject iat expire token_type) := by
  have hget : (issuedPayload subject iat expire token_type).get "exp" = some (.n expire) :=
    issuedPayload_get_exp ..
  have hty : (issuedPayload subject iat expire token_type).get "type" = some (.s token_type) :=
    issuedPayload_get_type ..
  unfold verify_token jwtDecode jwtEncode
  by_cases h1 : expire < now
  · simp [hget, CVal.toInt, h1, JoseError.message]
  · by_cases h2 : token_type = expected
    · subst h2
      simp [hget, hty, CVal.toInt, h1, gt_iff_lt]
    · simp [hget, hty, CVal.toInt, h1, h2, Ne.symm h2]

/-! ### Claim theorems: token subsystem -/

/-- C1: a token issued by `create_access_token` (resp. `create_refresh_token`)
and immediately verified with the same type at any time strictly before its
`exp` claim succeeds, and the returned claims carry `sub` equal to the
stringified subject it was issued with. -/
theorem issue_then_verify_same_type (subject key : String) (expires_delta : Option Nat)
    (t0 t1 : Nat) :
    (∀ exp,
      (create_access_token subject t0 expires_delta none key).payload.get "exp" = some (.n exp) →
      t1 < exp →
      verify_token (create_access_token subject t0 expires_delta none key) key t1 "access"
          = .ok (create_access_token subject t0 expires_delta none key).payload
        ∧ (create_access_token subject t0 expires_delta none key).payload.get "sub"
          = some (.s subject))
  ∧ (∀ exp,
      (create_refresh_token subject t0 key).payload.get "exp" = some (.n exp) →
      t1 < exp →
      verify_token (create_refresh_token subject t0 key) key t1 "refresh"
          = .ok (create_refresh_token subject t0 key).payload
        ∧ (create_refresh_token subject t0 key).payload.get "sub" = some (.s subject)) := by
  constructor
  · intro exp hexp hb
    rw [create_access_token_eq] at hexp ⊢
    simp only [jwtEncode, issuedPayload_get_exp, Option.some.injEq, CVal.n.injEq] at hexp
    subst hexp
    rw [verify_token_issued, if_neg (by omega), if_neg (by simp)]
    exact ⟨rfl, issuedPayload_get_sub ..⟩
  · intro exp hexp hb
    rw [create_refresh_token_eq] at hexp ⊢
    simp only [jwtEncode, issuedPayload_get_exp, Option.some.injEq, CVal.n.injEq] at hexp
    subst hexp
    rw [verify_token_issued, if_neg (by omega), if_neg (by simp)]
    exact ⟨rfl, issuedPayload_get_sub ..⟩

/-- Witness for C1 at subject "42", a 60-second delta, verification 10
seconds after issuance. -/
theorem issue_then_verify_same_type_witness :
    verify_token (create_access_token "42" 0 (some 60) none "k") "k" 10 "access"
        = .ok (create_access_token "42" 0 (some 60) none "k").payload
      ∧ (create_access_token "42" 0 (some 60) none "k").payload.get "sub"
        = some (.s "42") :=
  (issue_then_verify_same_type "42" "k" (some 60) 0 10).1 60 rfl (by decide)

/-- Shared helper: against a mismatched expected type, a signed standard
token never verifies, and when it is unexpired the failure is exactly the
wrong-token-type error. -/
theorem verify_wrong_type_issued (subject token_type expected key : String)
    (iat expire now : Nat) (hne : expected ≠ token_type) :
    (∀ p, verify_token (jwtEncode (issuedPayload subject iat expire token_type) key)
        key now expected ≠ .ok p)
  ∧ (now ≤ expire →
      verify_token (jwtEncode (issuedPayload subject iat expire token_type) key)
          key now expected
        = .error (UnauthorizedError "Invalid token type")) := by
  rw [verify_token_issued]
  constructor
  · intro p
    split
    · simp
    · rw [if_pos (Ne.symm hne)]
      simp
  · intro hle
    rw [if_neg (by omega), if_pos (Ne.symm hne)]

/-- C2 (amended): verifying a token against a different type than it was
issued with never returns a claims payload, and fails with exactly the
wrong-token-type error whenever the token is unexpired; an already-expired
token fails with the decode-level expiry error instead (see the
counterexample). -/
theorem wrong_type_verification (subject key expected : String) (expires_delta : Option Nat)
    (t0 now exp : Nat) :
    (expected ≠ "access" →
      (create_access_token subject t0 expires_delta none key).payload.get "exp" = some (.n exp) →
      (∀ p, verify_token (create_access_token subject t0 expires_delta none key)
          key now expected ≠ .ok p)
      ∧ (now ≤ exp →
          verify_token (create_access_token subject t0 expires_delta none key) key now expected
            = .error (UnauthorizedError "Invalid token type")))
  ∧ (expected ≠ "refresh" →
      (create_refresh_token subject t0 key).payload.get "exp" = some (.n exp) →
      (∀ p, verify_token (create_refresh_token subject t0 key) key now expected ≠ .ok p)
      ∧ (now ≤ exp →
          verify_token (create_refresh_token subject t0 key) key now expected
            = .error (UnauthorizedError "Invalid token type")))
  ∧ (expected ≠ "password_reset" →
      (generate_password_reset_token subject t0 key).payload.get "exp" = some (.n exp) →
      (∀ p, verify_token (generate_password_reset_token subject t0 key) key now expected ≠ .ok p)
      ∧ (now ≤ exp →
          verify_token (generate_password_reset_token subject t0 key) key now expected
            = .error (UnauthorizedError "Invalid token type"))) := by
  refine ⟨fun hne hexp => ?_, fun hne hexp => ?_, fun hne hexp => ?_⟩
  · rw [create_access_token_eq] at hexp ⊢
    simp only [jwtEncode, issuedPayload_get_exp, Option.some.injEq, CVal.n.injEq] at hexp
    subst hexp
    exact verify_wrong_type_issued _ _ _ _ _ _ _ hne
  · rw [create_refresh_token_eq] at hexp ⊢
    simp only [jwtEncode, issuedPayload_get_exp, Option.some.injEq, CVal.n.injEq] at hexp
    subst hexp
    exact verify_wrong_type_issued _ _ _ _ _ _ _ hne
  · rw [generate_password_reset_token_eq] at hexp ⊢
    simp only [jwtEncode, issuedPayload_get_exp, Option.some.injEq, CVal.n.injEq] at hexp
    subst hexp
    exact verify_wrong_type_issued _ _ _ _ _ _ _ hne

/-- Counterexample to C2 as stated: a refresh token that has already expired,
verified with expected type "access", fails with the decode-level expiry
error, not the wrong-token-type error. -/
theorem wrong_type_expired_counterexample :
    verify_token (create_refresh_token "1" 0 "k") "k" 1000000 "access"
      = .error (UnauthorizedError "Invalid token: Signature has expired.")
  ∧ UnauthorizedError "Invalid token: Signature has expired."
      ≠ UnauthorizedError "Invalid token type" := by
  exact ⟨rfl, by decide⟩

/-- Witness for the amended C2: an unexpired access token verified with
expected type "refresh" fails with exactly the wrong-token-type error. -/
theorem wrong_type_verification_witness :
    verify_token (create_access_token "1" 0 (some 60) none "k") "k" 30 "refresh"
      = .error (UnauthorizedError "Invalid token type") :=
  ((wrong_type_verification "1" "k" "refresh" (some 60) 0 30 60).1 (by decide) rfl).2
    (by decide)

/-- C3 (amended): a token with a valid signature whose numeric `exp` claim is
strictly in the past always fails verification, but with the decode-level
error `UnauthorizedError "Invalid token: Signature has expired."` raised by
`jose.jwt.decode`; `verify_token`'s own "Token has expired" error is only
reachable when the `exp` claim is absent from the payload. -/
theorem expired_token_fails_via_decode (c : Claims) (key expected : String) (now exp : Nat) :
    (c.get "exp" = some (.n exp) → exp < now →
      verify_token (jwtEncode c key) key now expected
        = .error (UnauthorizedError "Invalid token: Signature has expired."))
  ∧ (c.get "exp" = none → c.get "type" = some (.s expected) →
      verify_token (jwtEncode c key) key now expected
        = .error (UnauthorizedError "Token has expired")) := by
  constructor
  · intro hexp hlt
    unfold verify_token jwtDecode jwtEncode
    simp [hexp, CVal.toInt, hlt, JoseError.message]
  · intro hexp hty
    unfold verify_token jwtDecode jwtEncode
    simp [hexp, hty]

/-- Counterexample to C3 as stated: an access token with `exp = 100` fails at
`now = 101` with the invalid-token message produced by the decoding library,
which is not the code's "Token has expired" error; and at `now = exp = 100`
(so `exp ≤ now`) verification succeeds and returns the claims. -/
theorem token_expired_error_counterexample :
    verify_token (create_access_token "1" 0 (some 100) none "k") "k" 101 "access"
      = .error (UnauthorizedError "Invalid token: Signature has expired.")
  ∧ UnauthorizedError "Invalid token: Signature has expired."
      ≠ UnauthorizedError "Token has expired"
  ∧ verify_token (create_access_token "1" 0 (some 100) none "k") "k" 100 "access"
      = .ok (create_access_token "1" 0 (some 100) none "k").payload := by
  exact ⟨rfl, by decide, rfl⟩

/-- Witness for the amended C3 at a token expired 5 seconds before
verification, and at a payload lacking `exp` altogether. -/
theorem expired_token_fails_via_decode_witness :
    verify_token (jwtEncode (issuedPayload "1" 0 5 "access") "k") "k" 10 "access"
      = .error (UnauthorizedError "Invalid token: Signature has expired.")
  ∧ verify_token (jwtEncode [("type", CVal.s "access")] "k") "k" 10 "access"
      = .error (UnauthorizedError "Token has expired") :=
  ⟨(expired_token_fails_via_decode (issuedPayload "1" 0 5 "access") "k" "access" 10 5).1
      rfl (by decide),
   (expired_token_fails_via_decode [("type", CVal.s "access")] "k" "access" 10 0).2
      rfl rfl⟩

/-! ### Claim theorems: user service -/

/-- C4: when the supplied current password does not verify against the stored
hash, `change_password` raises `ValidationError` and leaves the entire user
table — in particular the stored password hash — exactly as it was. -/
theorem change_password_wrong_current (db : DB) (user_id : Nat)
    (password_change : UserChangePassword) (now : Nat) (user : UserInDB)
    (hfind : get_user_by_id db user_id = some user)
    (hwrong : verify_password password_change.current_password user.hashed_password = false) :
    change_password db user_id password_change now
      = (db, .error (ValidationError "Current password is incorrect")) := by
  unfold change_password
  rw [hfind]
  simp [hwrong]

/-- The stored user used to exercise C4. -/
def c4_user : UserInDB :=
  { id := 1
    email := "a@x.com"
    username := "alice"
    full_name := none
    hashed_password := get_password_hash "Right123"
    is_active := true
    is_superuser := false
    created_at := none
    updated_at := none
    last_login := none }

/-- Witness for C4: a wrong current password against a one-user table. -/
theorem change_password_wrong_current_witness :
    change_password [c4_user] 1
        { current_password := "Wrong123"
          new_password := "NewPass123"
          new_password_confirm := "NewPass123" } 5
      = ([c4_user], .error (ValidationError "Current password is incorrect")) :=
  change_password_wrong_current [c4_user] 1
    { current_password := "Wrong123"
      new_password := "NewPass123"
      new_password_confirm := "NewPass123" } 5 c4_user rfl (by decide)

/-- C5: registering over an already-present email (respectively username)
leaves the user table unchanged and fails with a `ConflictError`. -/
theorem create_user_conflict (db : DB) (user_create : UserCreate) (new_id now : Nat)
    (h : (∃ u ∈ db, u.email = user_create.email)
      ∨ (∃ u ∈ db, u.username = user_create.username)) :
    (create_user db user_create new_id now).1 = db
    ∧ ∃ msg, (create_user db user_create new_id now).2 = .error (ConflictError msg) := by
  unfold create_user
  cases hf : get_user_by_email db user_create.email with
  | some u => exact ⟨rfl, _, rfl⟩
  | none =>
    cases hg : get_user_by_username db user_create.username with
    | some u => exact ⟨rfl, _, rfl⟩
    | none =>
      exfalso
      rcases h with ⟨u, hu, he⟩ | ⟨u, hu, hn⟩
      · have hs : (get_user_by_email db user_create.email).isSome :=
          List.find?_isSome.mpr ⟨u, hu, decide_eq_true he⟩
        rw [hf] at hs
        simp at hs
      · have hs : (get_user_by_username db user_create.username).isSome :=
          List.find?_isSome.mpr ⟨u, hu, decide_eq_true hn⟩
        rw [hg] at hs
        simp at hs

/-- The registration input used to exercise C5 (same email as `c5_user`). -/
def c5_input : UserCreate :=
  { email := "a@x.com"
    username := "bob"
    full_name := none
    is_active := true
    password := "Abc12345"
    password_confirm := "Abc12345" }

/-- The stored user used to exercise C5. -/
def c5_user : UserInDB :=
  { id := 1
    email := "a@x.com"
    username := "alice"
    full_name := none
    hashed_password := get_password_hash "Abc12345"
    is_active := true
    is_superuser := false
    created_at := none
    updated_at := none
    last_login := none }

/-- Witness for C5: a duplicate email is rejected with the email conflict and
the table is unchanged. -/
theorem create_user_conflict_witness :
    (create_user [c5_user] c5_input 2 0).1 = [c5_user]
    ∧ (create_user [c5_user] c5_input 2 0).2
      = .error (ConflictError "User with this email already exists") :=
  ⟨(create_user_conflict [c5_user] c5_input 2 0 (.inl ⟨c5_user, by simp, rfl⟩)).1, rfl⟩

/-! ### Claim theorems: response exposure and endpoints -/

/-- C6: the serialized `User` response model — the only user representation
`register` (and every endpoint with `response_model=BaseResponse[User]`)
returns — carries exactly the declared public fields, so neither a
`password` nor a `hashed_password` key ever appears; and a successful
registration's data is such a `User` view built by `User.from_orm`. -/
theorem register_no_password_exposure (db : DB) (user_create : UserCreate)
    (new_id now : Nat) :
    (∀ v : User, "password" ∉ (User.toDict v).map Prod.fst
      ∧ "hashed_password" ∉ (User.toDict v).map Prod.fst)
  ∧ (∀ r v, (register db user_create new_id now).2 = .ok r → r.data = some v →
      "password" ∉ (User.toDict v).map Prod.fst
      ∧ "hashed_password" ∉ (User.toDict v).map Prod.fst) := by
  have hkeys : ∀ v : User, "password" ∉ (User.toDict v).map Prod.fst
      ∧ "hashed_password" ∉ (User.toDict v).map Prod.fst := by
    intro v
    constructor <;> simp [User.toDict]
  exact ⟨hkeys, fun r v _ _ => hkeys v⟩

/-- The registration input used to exercise C6. -/
def c6_input : UserCreate :=
  { email := "a@x.com"
    username := "alice"
    full_name := none
    is_active := true
    password := "Abc12345"
    password_confirm := "Abc12345" }

/-- The row an empty-table registration of `c6_input` creates. -/
def c6_created : UserInDB :=
  { id := 1
    email := "a@x.com"
    username := "alice"
    full_name := none
    hashed_password := get_password_hash "Abc12345"
    is_active := true
    is_superuser := false
    created_at := some 0
    updated_at := some 0
    last_login := none }

/-- Witness for C6: the user view from a concrete successful registration
serializes without any password key. -/
theorem register_no_password_exposure_witness :
    "password" ∉ (User.toDict (User.from_orm c6_created)).map Prod.fst
    ∧ "hashed_password" ∉ (User.toDict (User.from_orm c6_created)).map Prod.fst :=
  (register_no_password_exposure [] c6_input 1 0).2
    { success := true
      message := some "User registered successfully"
      data := some (User.from_orm c6_created) }
    (User.from_orm c6_created) rfl rfl

/-- C7 (amended): every listed authentication-failure cause yields status
401, and the three credential causes inside `login` (unknown email, wrong
password, inactive user) collapse to the single detail "Incorrect email or
password"; but the bearer-token path uses its own distinct details
("Could not validate credentials" for any token failure, "User is not
active" for an inactive user), so the causes are distinguishable across
endpoints (see the counterexample). -/
theorem auth_failure_observables (db : DB) (email password key : String) (tok : Jwt)
    (now : Nat) :
    (get_user_by_email db email = none →
      (login db email password now key).2
        = .error { status_code := 401, detail := "Incorrect email or password" })
  ∧ (∀ user, get_user_by_email db email = some user →
      verify_password password user.hashed_password = false →
      (login db email password now key).2
        = .error { status_code := 401, detail := "Incorrect email or password" })
  ∧ (∀ user, get_user_by_email db email = some user →
      user.is_active = false →
      (login db email password now key).2
        = .error { status_code := 401, detail := "Incorrect email or password" })
  ∧ (∀ e, get_user_id_from_token tok key now = .error e →
      get_current_user db (some tok) key now
        = .error { status_code := 401, detail := "Could not validate credentials" })
  ∧ (∀ uid n user, get_user_id_from_token tok key now = .ok uid →
      uid.toInt = some n →
      get_user_by_id db n = some user →
      user.is_active = false →
      get_current_user db (some tok) key now
        = .error { status_code := 401, detail := "User is not active" }) := by
  refine ⟨?_, ?_, ?_, ?_, ?_⟩
  · intro hnone
    unfold login authenticate_user
    rw [hnone]
  · intro user hfind hpw
    unfold login authenticate_user
    rw [hfind]
    simp [hpw]
  · intro user hfind hact
    unfold login authenticate_user
    rw [hfind]
    by_cases hpw : verify_password password user.hashed_password
    · simp [hpw, hact]
    · simp [hpw]
  · intro e he
    unfold get_current_user get_current_user_id
    simp only [he]
  · intro uid n user hok hint hfind hact
    unfold get_current_user get_current_user_id
    simp only [hok, hint, hfind]
    simp [hact]

/-- The one-user (inactive) table used to exercise C7. -/
def c7_db : DB :=
  [{ id := 1
     email := "a@x.com"
     username := "alice"
     full_name := none
     hashed_password := get_password_hash "Abc12345"
     is_active := false
     is_superuser := false
     created_at := none
     updated_at := none
     last_login := none }]

/-- Counterexample to C7 as stated: two of the listed causes — unknown email
at `login`, inactive user on the bearer-token path — both return 401 but with
different details, so the external message is not the same for every cause. -/
theorem auth_failure_distinguishable_counterexample :
    (login c7_db "b@y.com" "pw" 0 "k").2
      = .error { status_code := 401, detail := "Incorrect email or password" }
  ∧ get_current_user c7_db (some (create_access_token "1" 0 (some 100) none "k")) "k" 0
      = .error { status_code := 401, detail := "User is not active" }
  ∧ ("Incorrect email or password" : String) ≠ "User is not active" := by
  exact ⟨rfl, rfl, by decide⟩

/-- Witness for the amended C7: its concrete instantiations on `c7_db`. -/
theorem auth_failure_observables_witness :
    (login c7_db "b@y.com" "pw" 0 "k").2
      = .error { status_code := 401, detail := "Incorrect email or password" }
  ∧ (login c7_db "a@x.com" "Wrong999" 0 "k").2
      = .error { status_code := 401, detail := "Incorrect email or password" }
  ∧ get_current_user c7_db (some (jwtEncode [] "bad")) "k" 0
      = .error { status_code := 401, detail := "Could not validate credentials" }
  ∧ get_current_user c7_db (some (create_access_token "1" 0 (some 100) none "k")) "k" 0
      = .error { status_code := 401, detail := "User is not active" } :=
  ⟨(auth_failure_observables c7_db "b@y.com" "pw" "k" (jwtEncode [] "bad") 0).1 rfl,
   (auth_failure_observables c7_db "a@x.com" "Wrong999" "k" (jwtEncode [] "bad") 0).2.1
     _ rfl (by decide),
   (auth_failure_observables c7_db "x" "y" "k" (jwtEncode [] "bad") 0).2.2.2.1
     _ rfl,
   (auth_failure_observables c7_db "x" "y" "k"
       (create_access_token "1" 0 (some 100) none "k") 0).2.2.2.2
     (CVal.s "1") 1 _ rfl (by decide) rfl rfl⟩

/-- C8: a valid, unexpired refresh token whose subject resolves to an
existing active user makes the refresh endpoint return a fresh access token
and a fresh refresh token; and because verification is a pure function of
the token and the clock — no revocation state exists anywhere in the model —
the old refresh token still verifies at every instant up to its natural
expiry, unchanged by the refresh. -/
theorem refresh_preserves_old_token (db : DB) (s : String) (uid : Nat) (user : UserInDB)
    (key : String) (t0 now : Nat)
    (hsub : pyInt? s = some uid)
    (hne : s ≠ "")
    (huser : get_user_by_id db uid = some user)
    (hactive : user.is_active = true)
    (hnow : now ≤ t0 + refresh_token_expire_days * 24 * 60 * 60) :
    refresh_endpoint db (create_refresh_token s t0 key) key now
      = .ok { success := true
              message := some "Token refreshed successfully"
              data := some
                { access_token := create_access_token s now
                    (some (access_token_expire_minutes * 60)) none key
                  refresh_token := some (create_refresh_token s now key)
                  token_type := "bearer"
                  expires_in := access_token_expire_minutes * 60 } }
    ∧ (∀ t, t ≤ t0 + refresh_token_expire_days * 24 * 60 * 60 →
        verify_token (create_refresh_token s t0 key) key t "refresh"
          = .ok (create_refresh_token s t0 key).payload) := by
  constructor
  · unfold refresh_endpoint
    rw [create_refresh_token_eq, verify_token_issued, if_neg (by omega), if_neg (by simp)]
    simp only [issuedPayload_get_sub]
    simp [CVal.falsy, hne, CVal.toInt, hsub, huser, hactive, CVal.toStr]
  · intro t ht
    rw [create_refresh_token_eq, verify_token_issued, if_neg (by omega), if_neg (by simp)]
    rfl

/-- The one-user (active) table used to exercise C8. -/
def c8_db : DB :=
  [{ id := 1
     email := "a@x.com"
     username := "alice"
     full_name := none
     hashed_password := get_password_hash "Abc12345"
     is_active := true
     is_superuser := false
     created_at := none
     updated_at := none
     last_login := none }]

/-- Witness for C8: a refresh 1000 seconds after issuance succeeds and the
old refresh token still verifies right at its natural expiry. -/
theorem refresh_preserves_old_token_witness :
    refresh_endpoint c8_db (create_refresh_token "1" 0 "k") "k" 1000
      = .ok { success := true
              message := some "Token refreshed successfully"
              data := some
                { access_token := create_access_token "1" 1000
                    (some (access_token_expire_minutes * 60)) none "k"
                  refresh_token := some (create_refresh_token "1" 1000 "k")
                  token_type := "bearer"
                  expires_in := access_token_expire_minutes * 60 } }
    ∧ verify_token (create_refresh_token "1" 0 "k") "k" 604800 "refresh"
        = .ok (create_refresh_token "1" 0 "k").payload :=
  ⟨(refresh_preserves_old_token c8_db "1" 1 _ "k" 0 1000 (by decide) (by decide) rfl rfl
      (by decide)).1,
   (refresh_preserves_old_token c8_db "1" 1 _ "k" 0 1000 (by decide) (by decide) rfl rfl
      (by decide)).2 604800 (by decide)⟩

/-- C9: the readiness endpoint never raises: for every probe outcome it
returns a 200 response, with status "ready" on success and "not_ready" on a
failed database probe. -/
theorem readiness_check_never_fails (probe : Except String Unit) (now : Nat)
    (version environment : String) (uptime : Nat) :
    (∀ e, readiness_check probe now version environment uptime ≠ .error e)
  ∧ (∀ u, probe = .ok u →
      readiness_check probe now version environment uptime
        = .ok { status := "ready", timestamp := now, version := version
                environment := environment, uptime := some uptime })
  ∧ (∀ msg, probe = .error msg →
      readiness_check probe now version environment uptime
        = .ok { status := "not_ready", timestamp := now, version := version
                environment := environment, uptime := some uptime }) := by
  refine ⟨fun e => ?_, fun u hu => ?_, fun msg hm => ?_⟩
  · cases probe <;> simp [readiness_check]
  · subst hu; rfl
  · subst hm; rfl

/-- Witness for C9: a failed probe still yields a 200 "not_ready" response. -/
theorem readiness_check_never_fails_witness :
    readiness_check (.error "connection refused") 5 "1.0.0" "development" 17
      = .ok { status := "not_ready", timestamp := 5, version := "1.0.0"
              environment := "development", uptime := some 17 } :=
  (readiness_check_never_fails (.error "connection refused") 5 "1.0.0" "development"
    17).2.2 "connection refused" rfl

/-- C10: the optional-auth dependency is total (it is a plain function and
returns on every input): `none` without a credential, `none` whenever token
resolution fails for any reason, and the verified subject for a valid
unexpired access token. -/
theorem optional_auth_total (key : String) (now : Nat) :
    (OptionalAuth.call none key now = none)
  ∧ (∀ tok e, get_user_id_from_token tok key now = .error e →
      OptionalAuth.call (some tok) key now = none)
  ∧ (∀ subject expires_delta t0 exp,
      (create_access_token subject t0 expires_delta none key).payload.get "exp"
        = some (.n exp) →
      now ≤ exp →
      OptionalAuth.call (some (create_access_token subject t0 expires_delta none key))
          key now
        = some (.s subject)) := by
  refine ⟨rfl, fun tok e he => ?_, fun subject expires_delta t0 exp hexp hle => ?_⟩
  · unfold OptionalAuth.call
    simp only [he]
  · rw [create_access_token_eq] at hexp ⊢
    simp only [jwtEncode, issuedPayload_get_exp, Option.some.injEq, CVal.n.injEq] at hexp
    subst hexp
    simp only [OptionalAuth.call, get_user_id_from_token]
    rw [verify_token_issued, if_neg (by omega), if_neg (by simp)]
    simp only [issuedPayload_get_sub]

/-- Witness for C10: no credential, a forged token, and a valid token. -/
theorem optional_auth_total_witness :
    OptionalAuth.call none "k" 5 = none
  ∧ OptionalAuth.call (some (jwtEncode [] "bad")) "k" 5 = none
  ∧ OptionalAuth.call (some (create_access_token "7" 0 (some 60) none "k")) "k" 5
      = some (CVal.s "7") :=
  ⟨(optional_auth_total "k" 5).1,
   (optional_auth_total "k" 5).2.1 (jwtEncode [] "bad") _ rfl,
   (optional_auth_total "k" 5).2.2 "7" (some 60) 0 60 rfl (by decide)⟩
